import Mathlib

/-!
# sownotify: the poll / dedup / deliver pipeline

A shallow embedding of `notifier/notifier.go`.

* `gofeed.Item` values are records; the map `db` of `dbmanager` holds pointers to
  parser-produced items that are never mutated, so the pointer is modelled by the value.
* A goroutine started with `go` is recorded by its argument; the message it builds is
  `deliveryTask`.
* Calls to collaborators (HTTP, feed parser, pushover) are answers of an environment.
-/

set_option linter.dupNamespace false

namespace Sownotify

/-! ## Data model -/

/-- The fields of `gofeed.Item` this program reads. -/
structure Item where
  GUID : String
  Title : String
  Description : String
  Link : String
deriving DecidableEq, Repr

/-- The Go struct `rssItem` of `notifier.go`: a feed item with the poll generation. -/
structure rssItem where
  generation : Int
  item : Item
deriving DecidableEq, Repr

/-- The fields of `pushover.Message` this program sets; all others keep their zero value. -/
structure Message where
  Message : String
  Title : String
  URL : String
  Timestamp : Int
  HTML : Bool
deriving DecidableEq, Repr

/-- The Go function `pushover.NewMessageWithTitle`. -/
def NewMessageWithTitle (message title : String) : Message :=
  { Message := message, Title := title, URL := "", Timestamp := 0, HTML := false }

/-! ## The map `db` of `dbmanager` (`map[string]*gofeed.Item`) -/

/-- A Go map from GUID to item, as an association list. -/
abbrev Db := List (String × Item)

/-- The map `make(map[string]*gofeed.Item)`. -/
def Db.empty : Db := []

/-- The lookup `v, found := db[k]`. -/
def Db.get? : Db → String → Option Item
  | [], _ => none
  | (k', v) :: rest, k => if k' = k then some v else Db.get? rest k

/-- The assignment `db[k] = v`: overwrites an existing entry, otherwise adds one. -/
def Db.set : Db → String → Item → Db
  | [], k, v => [(k, v)]
  | (k', v') :: rest, k, v => if k' = k then (k, v) :: rest else (k', v') :: Db.set rest k v

/-- The keys of the map. -/
def Db.keys (db : Db) : List String := db.map Prod.fst

/-! ## `dbmanager.checkAndAdd` -/

/-- The closure `checkAndAdd` of `dbmanager`: the map after the call, and the argument of
the goroutine `go func(item *gofeed.Item)` when the call starts one. -/
def checkAndAdd (db : Db) (item : rssItem) : Db × Option Item :=
  if item.generation = 0 then
    match db.get? item.item.GUID with
    | none => (db.set item.item.GUID item.item, none)
    | some _ => (db, none)
  else
    match db.get? item.item.GUID with
    | none => (db.set item.item.GUID item.item, some item.item)
    | some _ => (db, none)

/-- The body of the goroutine `checkAndAdd` starts for a new item, up to the send
`push <- m`; `now` is the reading `time.Now().Unix()`. -/
def deliveryTask (now : Int) (item : Item) : Message :=
  let m := NewMessageWithTitle "" "sownotify"
  let m := { m with HTML := true }
  let m := { m with Timestamp := now }
  let m := { m with Message := "<b>New torrent:</b> " ++ item.Title ++ "<br>\n" ++ item.Description }
  { m with URL := item.Link }

/-- What `dbmanager` has done so far: its map, and the arguments of the delivery goroutines
it has started, oldest first (one delivery request each). -/
structure DbState where
  db : Db
  spawned : List Item
deriving DecidableEq, Repr

/-- The state of `dbmanager` before its loop. -/
def DbState.init : DbState := { db := Db.empty, spawned := [] }

/-- One iteration `case i := <-items: checkAndAdd(i)` of the loop of `dbmanager`. -/
def DbState.receive (s : DbState) (item : rssItem) : DbState :=
  let r := checkAndAdd s.db item
  { db := r.1, spawned := s.spawned ++ r.2.toList }

/-- The receive loop of `dbmanager` over the items it receives, in arrival order. -/
def processItems (s : DbState) (items : List rssItem) : DbState :=
  items.foldl DbState.receive s

/-- The items of one parsed feed, each wrapped with the generation, as `grabitems` does. -/
def tagItems (generation : Int) (items : List Item) : List rssItem :=
  items.map (fun item => { generation := generation, item := item })

/-! ## `rssReader.grabitems` -/

/-- A request built by `http.NewRequest`; `userAgent` is the header when the program sets it. -/
structure Request where
  url : String
  userAgent : Option String
deriving DecidableEq, Repr

/-- The body of an HTTP response. -/
structure Response where
  body : String
deriving DecidableEq, Repr

/-- The answers of the collaborators of one fetch: `http.NewRequest`, `http.DefaultClient.Do`
and `gofeed.Parser.Parse` (the `Items` of the parsed feed). -/
structure FeedEnv where
  newRequest : Except String Request
  doRequest : Request → Except String Response
  parse : Response → Except String (List Item)

/-- A Go `int` of `bits` bits after an arithmetic result `x`: two's complement wrap-around. -/
def wrapInt (bits : Nat) (x : Int) : Int :=
  (x + 2 ^ (bits - 1)) % 2 ^ bits - 2 ^ (bits - 1)

/-- The largest value of a Go `int` of `bits` bits. -/
def maxInt (bits : Nat) : Int := 2 ^ (bits - 1) - 1

/-- The smallest value of a Go `int` of `bits` bits. -/
def minInt (bits : Nat) : Int := - 2 ^ (bits - 1)

/-- What one call of `grabitems` has done. -/
structure GrabResult where
  /-- The tagged items whose send `items <- ...` completed, in order. -/
  sent : List rssItem
  /-- The value of `generation` afterwards. -/
  generation : Int
  /-- The call returned; `false` when it stays blocked at a send for ever. -/
  returned : Bool
deriving DecidableEq, Repr

/-- The closure `grabitems` of `rssReader`. The channel `items` has no capacity and the send
in the `range` loop is not guarded by `done`: `receives` is the number of receives
`dbmanager` still performs before it returns (`none` when it does not return). A send beyond
that number blocks for ever, so the loop stops there and `generation++` is not reached. -/
def grabitems (bits : Nat) (env : FeedEnv) (receives : Option Nat) (generation : Int) :
    GrabResult :=
  match env.newRequest with
  | .error _ => { sent := [], generation := generation, returned := true }
  | .ok req =>
    match env.doRequest req with
    | .error _ => { sent := [], generation := generation, returned := true }
    | .ok resp =>
      match env.parse resp with
      | .error _ => { sent := [], generation := generation, returned := true }
      | .ok items =>
        let tagged := tagItems generation items
        match receives with
        | none =>
          { sent := tagged, generation := wrapInt bits (generation + 1), returned := true }
        | some n =>
          if tagged.length ≤ n then
            { sent := tagged, generation := wrapInt bits (generation + 1), returned := true }
          else
            { sent := tagged.take n, generation := generation, returned := false }

/-- The poller and the dedup stage together, between two polls. -/
structure Pipeline where
  generation : Int
  dbs : DbState
deriving DecidableEq, Repr

/-- The pipeline when the three stages start. -/
def Pipeline.init : Pipeline := { generation := 0, dbs := DbState.init }

/-- One call of `grabitems` while `dbmanager` keeps receiving: the items sent reach
`checkAndAdd` in the order sent. -/
def pollCycle (bits : Nat) (env : FeedEnv) (p : Pipeline) : Pipeline :=
  let r := grabitems bits env none p.generation
  { generation := r.generation, dbs := processItems p.dbs r.sent }

/-- Successive calls of `grabitems` while `dbmanager` keeps receiving, one per environment
answer. -/
def pollCycles (bits : Nat) (envs : List FeedEnv) (p : Pipeline) : Pipeline :=
  envs.foldl (fun q env => pollCycle bits env q) p

/-! ## `validateConfig` and `Run` -/

/-- The answers of the collaborators at startup: `p.SendMessage` (its error, if any) and
the feed collaborators. -/
structure StartupEnv where
  sendMessage : Message → Option String
  feed : FeedEnv

/-- A call to a collaborator made by `validateConfig`. -/
inductive Call where
  | sendMessage (m : Message)
  | newRequest
  | doRequest (req : Request)
  | parse (resp : Response)
deriving DecidableEq, Repr

/-- The message `m` of `validateConfig`. -/
def readyMessage : Message :=
  NewMessageWithTitle "sownotify is ready to send notifications!" "sownotify"

/-- The statement `req.Header.Set("User-Agent", "Sownotify/0.1")`. -/
def Request.setUserAgent (req : Request) : Request :=
  { req with userAgent := some "Sownotify/0.1" }

/-- The function `validateConfig`: the error returned (`none` for `nil`) and the calls made
to collaborators, in order. -/
def validateConfig (env : StartupEnv) : Option String × List Call :=
  let m := readyMessage
  match env.sendMessage m with
  | some err => (some err, [.sendMessage m])
  | none =>
    match env.feed.newRequest with
    | .error err => (some err, [.sendMessage m, .newRequest])
    | .ok req =>
      let req := req.setUserAgent
      match env.feed.doRequest req with
      | .error err => (some err, [.sendMessage m, .newRequest, .doRequest req])
      | .ok resp =>
        match env.feed.parse resp with
        | .error err => (some err, [.sendMessage m, .newRequest, .doRequest req, .parse resp])
        | .ok _ => (none, [.sendMessage m, .newRequest, .doRequest req, .parse resp])

/-- The three goroutines `Run` starts. -/
inductive Stage where
  | pusher
  | rssReader
  | dbmanager
deriving DecidableEq, Repr

/-- The expression `time.Second * time.Duration(viper.GetInt64("poll-interval"))` of
`rssReader`: a product of `int64` values, in nanoseconds. -/
def tickerDuration (pollInterval : Int) : Int :=
  wrapInt 64 (1000000000 * pollInterval)

/-- The call `time.NewTicker(d)` panics when `d` is not positive. -/
def NewTickerPanics (d : Int) : Bool := decide (d ≤ 0)

/-- How a call of `Run` ends. -/
inductive RunOutcome where
  /-- The call returned this error (`none` for `nil`). -/
  | returned (err : Option String)
  /-- The call is blocked in `done.Wait()`. -/
  | waiting
  /-- A goroutine panicked: the process is killed and `Run` does not return. -/
  | panicked
deriving DecidableEq, Repr

/-- What `Run` has done: the stages started with `go`, in order, and how the call ends. -/
structure RunResult where
  started : List Stage
  outcome : RunOutcome
deriving DecidableEq, Repr

/-- The function `Run`. `pollInterval` is the configured `poll-interval`, which
`validateConfig` does not read and `rssReader` passes to `time.NewTicker`; `wgCounter` is the
counter of the wait group `done` that the stages leave behind (`done.Wait()` returns when it
is zero). -/
def Run (env : StartupEnv) (pollInterval : Int) (wgCounter : Nat) : RunResult :=
  match (validateConfig env).1 with
  | some err => { started := [], outcome := .returned (some err) }
  | none =>
    { started := [.pusher, .rssReader, .dbmanager],
      outcome :=
        if NewTickerPanics (tickerDuration pollInterval) then .panicked
        else if wgCounter = 0 then .returned none
        else .waiting }

/-! ## The three goroutines as a transition system

Channels `rssChan` and `pushChan` are made without capacity: a send completes only together
with a receive. A `select` with several ready cases takes any of them. -/

/-- Where `rssReader` stands. -/
inductive ReaderAt where
  /-- About to call `grabitems` (before the loop, or after `<-ticker.C`). -/
  | grab
  /-- In `for _, item := range feed.Items`, at the send `items <- ...` of the head of
  `pending`; `next` is the value `generation++` stores once the loop is over. -/
  | send (pending : List rssItem) (next : Int)
  /-- At `select` between `<-done` and `<-ticker.C`. -/
  | select
  /-- Returned, after `wg.Done()`. -/
  | exited
deriving DecidableEq, Repr

/-- The state of the goroutines started by `Run`. -/
structure Sys where
  /-- The channel `quit` is closed. -/
  quit : Bool
  /-- The counter of the wait group `done`. -/
  wg : Nat
  reader : ReaderAt
  generation : Int
  /-- The goroutine `dbmanager` is at its `select` (it has not returned). -/
  dbmanagerAlive : Bool
  db : Db
  /-- The delivery goroutines at their send `push <- m`, oldest first. -/
  blocked : List Message
  /-- The goroutine `pusher` is at its `select` (it has not returned). -/
  pusherAlive : Bool
  /-- The messages `pusher` has passed to `send`, in order. -/
  pushed : List Message
deriving DecidableEq, Repr

/-- The state after `done.Add(3)` and the three `go` statements of `Run`, the ticker of
`rssReader` made. -/
def Sys.init : Sys :=
  { quit := false, wg := 3, reader := .grab, generation := 0, dbmanagerAlive := true,
    db := Db.empty, blocked := [], pusherAlive := true, pushed := [] }

/-- One atomic step of one goroutine (or of two, for a send meeting a receive). -/
inductive Action where
  /-- The signal goroutine runs `close(quit)`. -/
  | signal
  /-- The call `grabitems()` runs up to its `range` loop, with these collaborator answers. -/
  | fetch (env : FeedEnv)
  /-- The reader takes `case <-ticker.C`. -/
  | tick
  /-- The send `items <- ...` meets `case i := <-items` and `checkAndAdd(i)` runs; a
  goroutine started by it reads the clock as `now`. -/
  | handoff (now : Int)
  /-- The send `push <- m` of the blocked goroutine number `i` meets `case m := <-push`. -/
  | deliver (i : Nat)
  /-- The reader takes `case <-done`. -/
  | readerDone
  /-- The goroutine `dbmanager` takes `case <-done`. -/
  | dbmanagerDone
  /-- The goroutine `pusher` takes `case <-done`. -/
  | pusherDone

/-- The reader with `pending` left to send in the `range` loop: at the next send, or, the
loop being over, past `generation++` and back at `select`. -/
def Sys.continueLoop (s : Sys) (pending : List rssItem) (next : Int) : Sys :=
  match pending with
  | [] => { s with reader := .select, generation := next }
  | _ :: _ => { s with reader := .send pending next }

/-- The step relation, as a function: `none` when the action is not enabled. -/
def step (bits : Nat) (a : Action) (s : Sys) : Option Sys :=
  match a with
  | .signal => if s.quit then none else some { s with quit := true }
  | .fetch env =>
    match s.reader with
    | .grab =>
      let r := grabitems bits env none s.generation
      some (s.continueLoop r.sent r.generation)
    | _ => none
  | .tick =>
    match s.reader with
    | .select => some { s with reader := .grab }
    | _ => none
  | .handoff now =>
    match s.reader with
    | .send (item :: rest) next =>
      if s.dbmanagerAlive then
        let r := checkAndAdd s.db item
        let s := { s with db := r.1, blocked := s.blocked ++ (r.2.toList.map (deliveryTask now)) }
        some (s.continueLoop rest next)
      else none
    | _ => none
  | .deliver i =>
    match s.blocked.get? i with
    | some m =>
      if s.pusherAlive then
        some { s with blocked := s.blocked.eraseIdx i, pushed := s.pushed ++ [m] }
      else none
    | none => none
  | .readerDone =>
    match s.reader with
    | .select => if s.quit then some { s with reader := .exited, wg := s.wg - 1 } else none
    | _ => none
  | .dbmanagerDone =>
    if s.dbmanagerAlive && s.quit then some { s with dbmanagerAlive := false, wg := s.wg - 1 }
    else none
  | .pusherDone =>
    if s.pusherAlive && s.quit then some { s with pusherAlive := false, wg := s.wg - 1 }
    else none

/-- A run of the system along a list of actions; `none` when one of them is not enabled. -/
def exec (bits : Nat) : List Action → Sys → Option Sys
  | [], s => some s
  | a :: rest, s => (step bits a s).bind (exec bits rest)

/-- The call `done.Wait()` of `Run` can return. -/
def Sys.waitReturns (s : Sys) : Bool := s.wg == 0

/-! ## Notions of the specification, and sample data -/

/-- The item of the first tagged item of a sequence that carries the identifier `id`. -/
def firstSeen (id : String) (items : List rssItem) : Option Item :=
  (items.find? (fun t => t.item.GUID = id)).map (fun t => t.item)

/-- The item of the last tagged item of a sequence that carries the identifier `id`. -/
def lastSeen (id : String) (items : List rssItem) : Option Item :=
  firstSeen id items.reverse

/-- The delivery requests of a sequence of started goroutines that are for identifier `id`. -/
def requestsFor (id : String) (spawned : List Item) : List Item :=
  spawned.filter (fun i => i.GUID = id)

/-- Collaborator answers of a poll that succeeds and parses to `items`. -/
def FeedEnv.returning (items : List Item) : FeedEnv :=
  { newRequest := .ok { url := "feed", userAgent := none },
    doRequest := fun _ => .ok { body := "" },
    parse := fun _ => .ok items }

/-- A sample feed item with identifier `id`. -/
def sample (id : String) : Item :=
  { GUID := id, Title := "title " ++ id, Description := "about " ++ id, Link := "http://x/" ++ id }

/-- One poll with these answers fails: at request construction, at the HTTP transport, or
at feed parsing. -/
def FeedEnv.fails (env : FeedEnv) : Prop :=
  (∃ e, env.newRequest = .error e) ∨
  (∃ req e, env.newRequest = .ok req ∧ env.doRequest req = .error e) ∨
  (∃ req resp e, env.newRequest = .ok req ∧ env.doRequest req = .ok resp ∧
    env.parse resp = .error e)

/-- The readiness notification send fails with `e`. -/
def StartupEnv.sendFails (env : StartupEnv) (e : String) : Prop :=
  env.sendMessage readyMessage = some e

/-- Building the feed request fails with `e`. -/
def StartupEnv.buildFails (env : StartupEnv) (e : String) : Prop :=
  env.feed.newRequest = .error e

/-- The feed fetch fails at the transport with `e`. -/
def StartupEnv.fetchFails (env : StartupEnv) (e : String) : Prop :=
  ∃ req, env.feed.newRequest = .ok req ∧ env.feed.doRequest req.setUserAgent = .error e

/-- Parsing the fetched body fails with `e`. -/
def StartupEnv.parseFails (env : StartupEnv) (e : String) : Prop :=
  ∃ req resp, env.feed.newRequest = .ok req ∧
    env.feed.doRequest req.setUserAgent = .ok resp ∧ env.feed.parse resp = .error e

/-- Collaborator answers of a poll whose fetch fails at the transport. -/
def FeedEnv.unreachable : FeedEnv :=
  { newRequest := .ok { url := "feed", userAgent := none },
    doRequest := fun _ => .error "connection refused",
    parse := fun _ => .ok [] }

/-- Collaborator answers at startup when the credentials and the feed are good. -/
def StartupEnv.healthy : StartupEnv :=
  { sendMessage := fun _ => none, feed := FeedEnv.returning [sample "A"] }

/-- A schedule: the signal comes while the first fetch is in flight; `dbmanager` and `pusher`
take `<-done`; then the fetch and the parse succeed with the one item A. -/
def lateFetchSchedule : List Action :=
  [.signal, .dbmanagerDone, .pusherDone, .fetch (FeedEnv.returning [sample "A"])]

/-- The state `lateFetchSchedule` leads to. -/
def lateFetchStuck : Sys :=
  { quit := true, wg := 1, reader := .send [⟨0, sample "A"⟩] 1, generation := 0,
    dbmanagerAlive := false, db := Db.empty, blocked := [], pusherAlive := false,
    pushed := [] }

/-- A schedule: a bootstrap poll of A; a poll of B, C of which B is handed over; then the
signal, after which `dbmanager` and `pusher` take `<-done`. -/
def shutdownSchedule : List Action :=
  [.fetch (FeedEnv.returning [sample "A"]), .handoff 100, .tick,
   .fetch (FeedEnv.returning [sample "B", sample "C"]), .handoff 200,
   .signal, .dbmanagerDone, .pusherDone]

/-- The state `shutdownSchedule` leads to. -/
def shutdownStuck : Sys :=
  { quit := true, wg := 1, reader := .send [⟨1, sample "C"⟩] 2, generation := 1,
    dbmanagerAlive := false, db := [("A", sample "A"), ("B", sample "B")],
    blocked := [deliveryTask 200 (sample "B")], pusherAlive := false, pushed := [] }

end Sownotify

namespace Sownotify

/-! ## Facts about the map -/

theorem Db.get?_set (db : Db) (k k' : String) (v : Item) :
    (db.set k v).get? k' = if k = k' then some v else db.get? k' := by
  induction db with
  | nil => simp [Db.set, Db.get?]
  | cons e rest ih =>
    obtain ⟨k0, v0⟩ := e
    by_cases h0 : k0 = k
    · subst h0
      by_cases h1 : k0 = k' <;> simp [Db.set, Db.get?, h1]
    · by_cases h1 : k0 = k'
      · subst h1
        have h2 : ¬ k = k0 := fun h => h0 h.symm
        simp [Db.set, Db.get?, h0, h2]
      · simp [Db.set, Db.get?, h0, h1, ih]

theorem Db.mem_keys_iff (db : Db) (k : String) : k ∈ db.keys ↔ db.get? k ≠ none := by
  induction db with
  | nil => simp [Db.keys, Db.get?]
  | cons e rest ih =>
    obtain ⟨k0, v0⟩ := e
    by_cases h0 : k0 = k
    · simp [Db.keys, Db.get?, h0]
    · have h1 : ¬ k = k0 := fun h => h0 h.symm
      simp only [Db.keys] at ih
      simp [Db.keys, Db.get?, h0, h1, ih]

theorem Db.mem_keys_set (db : Db) (k k' : String) (v : Item) :
    k' ∈ (db.set k v).keys ↔ k' ∈ db.keys ∨ k' = k := by
  rw [Db.mem_keys_iff, Db.mem_keys_iff, Db.get?_set]
  by_cases h : k = k'
  · simp [h]
  · have h1 : ¬ k' = k := fun e => h e.symm
    simp [h, h1]

theorem Db.get?_eq_none_iff (db : Db) (k : String) : db.get? k = none ↔ k ∉ db.keys := by
  rw [Db.mem_keys_iff]; simp

/-! ## Facts about `checkAndAdd` and the receive loop -/

theorem checkAndAdd_keys (K : Db) (t : rssItem) (k : String) :
    k ∈ (checkAndAdd K t).1.keys ↔ k ∈ K.keys ∨ k = t.item.GUID := by
  unfold checkAndAdd
  cases hg : K.get? t.item.GUID with
  | none => split <;> simp [Db.mem_keys_set]
  | some v =>
    have hk : t.item.GUID ∈ K.keys := by rw [Db.mem_keys_iff, hg]; simp
    split <;>
    · simp only
      constructor
      · intro h; exact Or.inl h
      · rintro (h | h)
        · exact h
        · rw [h]; exact hk

theorem checkAndAdd_known (K : Db) (t : rssItem) (h : t.item.GUID ∈ K.keys) :
    checkAndAdd K t = (K, none) := by
  rw [Db.mem_keys_iff] at h
  unfold checkAndAdd
  cases hg : K.get? t.item.GUID with
  | none => exact absurd hg h
  | some v => split <;> rfl

theorem checkAndAdd_new (K : Db) (t : rssItem) (hg : t.generation ≠ 0)
    (h : t.item.GUID ∉ K.keys) :
    checkAndAdd K t = (K.set t.item.GUID t.item, some t.item) := by
  rw [← Db.get?_eq_none_iff] at h
  unfold checkAndAdd
  rw [if_neg hg, h]

theorem checkAndAdd_spawned (K : Db) (t : rssItem) (i : Item)
    (h : (checkAndAdd K t).2 = some i) :
    i = t.item ∧ t.generation ≠ 0 ∧ t.item.GUID ∉ K.keys := by
  unfold checkAndAdd at h
  by_cases hg : t.generation = 0
  · rw [if_pos hg] at h
    cases hk : K.get? t.item.GUID <;> rw [hk] at h <;> simp at h
  · rw [if_neg hg] at h
    cases hk : K.get? t.item.GUID with
    | none =>
      rw [hk] at h
      simp only [Option.some.injEq] at h
      exact ⟨h.symm, hg, (Db.get?_eq_none_iff K _).1 hk⟩
    | some v => rw [hk] at h; simp at h

theorem checkAndAdd_get?_of_mem (K : Db) (t : rssItem) (k : String) (h : k ∈ K.keys) :
    (checkAndAdd K t).1.get? k = K.get? k := by
  unfold checkAndAdd
  cases hg : K.get? t.item.GUID with
  | some v => split <;> rfl
  | none =>
    have hne : ¬ t.item.GUID = k := by
      intro e
      rw [Db.mem_keys_iff, ← e, hg] at h
      exact h rfl
    split <;> simp [Db.get?_set, hne]

theorem processItems_nil (s : DbState) : processItems s [] = s := rfl

theorem processItems_cons (s : DbState) (t : rssItem) (rest : List rssItem) :
    processItems s (t :: rest) = processItems (s.receive t) rest := rfl

theorem processItems_keys (s : DbState) (items : List rssItem) (k : String) :
    k ∈ (processItems s items).db.keys ↔ k ∈ s.db.keys ∨ ∃ t ∈ items, t.item.GUID = k := by
  induction items generalizing s with
  | nil => simp [processItems_nil]
  | cons t rest ih =>
    rw [processItems_cons, ih]
    simp only [DbState.receive, checkAndAdd_keys, List.mem_cons, exists_eq_or_imp]
    constructor
    · rintro ((h | h) | h)
      · exact Or.inl h
      · exact Or.inr (Or.inl h.symm)
      · exact Or.inr (Or.inr h)
    · rintro (h | h | h)
      · exact Or.inl (Or.inl h)
      · exact Or.inl (Or.inr h.symm)
      · exact Or.inr h

theorem processItems_get?_of_mem (s : DbState) (items : List rssItem) (k : String)
    (h : k ∈ s.db.keys) : (processItems s items).db.get? k = s.db.get? k := by
  induction items generalizing s with
  | nil => rfl
  | cons t rest ih =>
    rw [processItems_cons, ih]
    · exact checkAndAdd_get?_of_mem s.db t k h
    · exact (checkAndAdd_keys s.db t k).2 (Or.inl h)

theorem processItems_known (s : DbState) (items : List rssItem)
    (h : ∀ t ∈ items, t.item.GUID ∈ s.db.keys) : processItems s items = s := by
  induction items with
  | nil => rfl
  | cons t rest ih =>
    have ht : s.receive t = s := by
      simp [DbState.receive, checkAndAdd_known s.db t (h t (List.mem_cons_self _ _))]
    rw [processItems_cons, ht]
    exact ih (fun u hu => h u (List.mem_cons_of_mem _ hu))

/-- The goroutines started over a run of the loop: appended to those already started, from
items of a generation other than 0, with pairwise different GUIDs, none a key beforehand. -/
theorem processItems_spawned (s : DbState) (items : List rssItem) :
    ∃ extra : List Item, (processItems s items).spawned = s.spawned ++ extra ∧
      (extra.map Item.GUID).Nodup ∧
      (∀ i ∈ extra, i.GUID ∉ s.db.keys) ∧
      (∀ i ∈ extra, ∃ t ∈ items, t.item = i ∧ t.generation ≠ 0) := by
  induction items generalizing s with
  | nil => exact ⟨[], by simp [processItems_nil]⟩
  | cons t rest ih =>
    obtain ⟨extra, hsp, hnd, hnew, hsrc⟩ := ih (s.receive t)
    have hkeys : ∀ k, k ∈ s.db.keys → k ∈ (s.receive t).db.keys :=
      fun k hk => (checkAndAdd_keys s.db t k).2 (Or.inl hk)
    cases hr : (checkAndAdd s.db t).2 with
    | none =>
      refine ⟨extra, ?_, hnd, fun i hi hk => hnew i hi (hkeys _ hk), ?_⟩
      · rw [processItems_cons, hsp]; simp [DbState.receive, hr]
      · intro i hi
        obtain ⟨u, hu, h1, h2⟩ := hsrc i hi
        exact ⟨u, List.mem_cons_of_mem _ hu, h1, h2⟩
    | some j =>
      obtain ⟨hj, hg, hnk⟩ := checkAndAdd_spawned s.db t j hr
      have hin : t.item.GUID ∈ (s.receive t).db.keys :=
        (checkAndAdd_keys s.db t _).2 (Or.inr rfl)
      refine ⟨j :: extra, ?_, ?_, ?_, ?_⟩
      · rw [processItems_cons, hsp]; simp [DbState.receive, hr]
      · simp only [List.map_cons, List.nodup_cons, List.mem_map, not_exists, not_and]
        refine ⟨?_, hnd⟩
        intro i hi e
        apply hnew i hi
        rw [e, hj]; exact hin
      · intro i hi
        rcases List.mem_cons.1 hi with h | h
        · rw [h, hj]; exact hnk
        · exact fun hk => hnew i h (hkeys _ hk)
      · intro i hi
        rcases List.mem_cons.1 hi with h | h
        · exact ⟨t, List.mem_cons_self _ _, by rw [h, hj], hg⟩
        · obtain ⟨u, hu, h1, h2⟩ := hsrc i h
          exact ⟨u, List.mem_cons_of_mem _ hu, h1, h2⟩

theorem requestsFor_length_le_one (id : String) (extra : List Item)
    (h : (extra.map Item.GUID).Nodup) : (requestsFor id extra).length ≤ 1 := by
  induction extra with
  | nil => simp [requestsFor]
  | cons j rest ih =>
    simp only [List.map_cons, List.nodup_cons, List.mem_map, not_exists, not_and] at h
    by_cases hj : j.GUID = id
    · have hrest : requestsFor id rest = [] := by
        simp only [requestsFor, List.filter_eq_nil_iff, decide_eq_true_eq]
        intro i hi e
        exact h.1 i hi (by rw [e, hj])
      simp only [requestsFor] at hrest ⊢
      simp [List.filter_cons, hj, hrest]
    · simp only [requestsFor] at ih ⊢
      simpa [List.filter_cons, hj] using ih h.2

theorem processItems_one_new (K : Db) (sp : List Item) (L : List Item) (X : String)
    (x : Item) (g : Int) (hg : g ≠ 0) (hX : X ∉ K.keys)
    (hL : ∀ i ∈ L, i.GUID ∈ K.keys ∨ i.GUID = X)
    (hx : L.find? (fun i => i.GUID = X) = some x) :
    processItems { db := K, spawned := sp } (tagItems g L)
      = { db := K.set X x, spawned := sp ++ [x] } := by
  induction L with
  | nil => simp at hx
  | cons i rest ih =>
    have htag : tagItems g (i :: rest) = ⟨g, i⟩ :: tagItems g rest := rfl
    rw [htag, processItems_cons]
    by_cases hi : i.GUID = X
    · have hxi : x = i := by simpa [List.find?_cons, hi] using hx.symm
      subst hxi
      have hr : DbState.receive { db := K, spawned := sp } ⟨g, x⟩
          = { db := K.set X x, spawned := sp ++ [x] } := by
        have := checkAndAdd_new K ⟨g, x⟩ hg (by rw [hi]; exact hX)
        simp [DbState.receive, this, hi]
      rw [hr]
      apply processItems_known
      intro t ht
      simp only [tagItems, List.mem_map] at ht
      obtain ⟨j, hj, rfl⟩ := ht
      rw [Db.mem_keys_set]
      exact hL j (List.mem_cons_of_mem _ hj)
    · have hk : i.GUID ∈ K.keys := (hL i (List.mem_cons_self _ _)).resolve_right hi
      have hr : DbState.receive { db := K, spawned := sp } ⟨g, i⟩
          = { db := K, spawned := sp } := by
        simp [DbState.receive, checkAndAdd_known K ⟨g, i⟩ hk]
      rw [hr]
      apply ih (fun j hj => hL j (List.mem_cons_of_mem _ hj))
      simpa [List.find?_cons, hi] using hx

theorem two_pow_bits (bits : Nat) (hb : 0 < bits) :
    (2 : Int) ^ bits = 2 * 2 ^ (bits - 1) := by
  obtain ⟨n, rfl⟩ : ∃ n, bits = n + 1 := ⟨bits - 1, by omega⟩
  rw [pow_succ, Nat.add_sub_cancel]
  ring

theorem wrapInt_of_inRange (bits : Nat) (hb : 0 < bits) (x : Int)
    (h1 : minInt bits ≤ x) (h2 : x ≤ maxInt bits) : wrapInt bits x = x := by
  unfold wrapInt
  unfold minInt at h1
  unfold maxInt at h2
  rw [two_pow_bits bits hb]
  generalize (2 : Int) ^ (bits - 1) = P at h1 h2 ⊢
  rw [Int.emod_eq_of_lt (by omega) (by omega)]
  omega

theorem wrapInt_succ_maxInt (bits : Nat) (hb : 0 < bits) :
    wrapInt bits (maxInt bits + 1) = minInt bits := by
  unfold wrapInt maxInt minInt
  rw [two_pow_bits bits hb]
  generalize (2 : Int) ^ (bits - 1) = P
  have : P - 1 + 1 + P = 2 * P := by ring
  rw [this, Int.emod_self]
  omega

theorem processItems_bootstrap_quiet (s : DbState) (items : List Item) :
    (processItems s (tagItems 0 items)).spawned = s.spawned := by
  obtain ⟨extra, hsp, -, -, hsrc⟩ := processItems_spawned s (tagItems 0 items)
  rw [hsp]
  cases extra with
  | nil => simp
  | cons j rest =>
    obtain ⟨t, ht, -, hg⟩ := hsrc j (List.mem_cons_self _ _)
    simp only [tagItems, List.mem_map] at ht
    obtain ⟨i, -, rfl⟩ := ht
    exact absurd rfl hg

/-- A successful call of `grabitems` all of whose sends are received sends every parsed
item, tagged with the counter, and stores the incremented counter. -/
theorem grabitems_all_received (bits : Nat) (env : FeedEnv) (req : Request)
    (resp : Response) (L : List Item) (g : Int) (receives : Option Nat)
    (h1 : env.newRequest = .ok req) (h2 : env.doRequest req = .ok resp)
    (h3 : env.parse resp = .ok L) (hr : ∀ n, receives = some n → L.length ≤ n) :
    grabitems bits env receives g
      = { sent := tagItems g L, generation := wrapInt bits (g + 1), returned := true } := by
  unfold grabitems
  rw [h1]; simp only; rw [h2]; simp only; rw [h3]
  cases receives with
  | none => rfl
  | some n =>
    have : (tagItems g L).length ≤ n := by simpa [tagItems] using hr n rfl
    simp [this]

/-- The value `Run` returns: an error exactly when `validateConfig` returns it, before any
stage is started; otherwise the three stages are started and the only value returned is
`nil`. -/
theorem Run_returned (env : StartupEnv) (pollInterval : Int) (wg : Nat) :
    (∀ e, (Run env pollInterval wg).outcome = .returned (some e) ↔
      (validateConfig env).1 = some e) ∧
    ((validateConfig env).1 ≠ none → (Run env pollInterval wg).started = []) ∧
    ((validateConfig env).1 = none →
      (Run env pollInterval wg).started = [.pusher, .rssReader, .dbmanager] ∧
      (NewTickerPanics (tickerDuration pollInterval) = true →
        (Run env pollInterval wg).outcome = .panicked)) := by
  refine ⟨?_, ?_, ?_⟩
  · intro e
    unfold Run
    cases hv : (validateConfig env).1 with
    | none =>
      by_cases hp : NewTickerPanics (tickerDuration pollInterval) = true
      · simp [hp]
      · by_cases hw : wg = 0 <;> simp [hp, hw]
    | some e' => simp
  · intro h
    unfold Run
    cases hv : (validateConfig env).1 with
    | none => exact absurd hv h
    | some e => rfl
  · intro h
    unfold Run
    rw [h]
    exact ⟨rfl, fun hp => by simp [hp]⟩

/-- The error `validateConfig` returns is that of the first failing step, and no later
collaborator is called. -/
theorem validateConfig_first_failure (env : StartupEnv) :
    ((validateConfig env).1 ≠ none ↔
      (∃ e, env.sendFails e) ∨ (∃ e, env.buildFails e) ∨ (∃ e, env.fetchFails e) ∨
        (∃ e, env.parseFails e)) ∧
    (∀ e, env.sendFails e → validateConfig env = (some e, [.sendMessage readyMessage])) ∧
    (∀ e, env.sendMessage readyMessage = none → env.buildFails e →
      validateConfig env = (some e, [.sendMessage readyMessage, .newRequest])) ∧
    (∀ e req, env.sendMessage readyMessage = none → env.feed.newRequest = .ok req →
      env.feed.doRequest req.setUserAgent = .error e →
      validateConfig env
        = (some e, [.sendMessage readyMessage, .newRequest, .doRequest req.setUserAgent])) ∧
    (∀ e req resp, env.sendMessage readyMessage = none → env.feed.newRequest = .ok req →
      env.feed.doRequest req.setUserAgent = .ok resp → env.feed.parse resp = .error e →
      validateConfig env
        = (some e, [.sendMessage readyMessage, .newRequest, .doRequest req.setUserAgent,
            .parse resp])) := by
  refine ⟨?_, ?_, ?_, ?_, ?_⟩
  · unfold validateConfig StartupEnv.sendFails StartupEnv.buildFails StartupEnv.fetchFails
      StartupEnv.parseFails
    cases hs : env.sendMessage readyMessage with
    | some e => simp [hs]
    | none =>
      cases hn : env.feed.newRequest with
      | error e => simp [hs, hn]
      | ok req =>
        cases hd : env.feed.doRequest req.setUserAgent with
        | error e => simp [hs, hn, hd]
        | ok resp =>
          cases hp : env.feed.parse resp with
          | error e => simp [hs, hn, hd, hp]
          | ok items => simp [hs, hn, hd, hp]
  · intro e h
    unfold StartupEnv.sendFails at h
    simp [validateConfig, h]
  · intro e hs h
    unfold StartupEnv.buildFails at h
    simp [validateConfig, hs, h]
  · intro e req hs hn hd
    simp [validateConfig, hs, hn, hd]
  · intro e req resp hs hn hd hp
    simp [validateConfig, hs, hn, hd, hp]

end Sownotify

namespace Sownotify

/-! ## The dedup stage -/

/-- C1: Bootstrap suppression. Processing any list of feed items through `checkAndAdd` in
order, each tagged with generation 0, from any map, starts no delivery goroutine, and the
GUID of every item of the list is a key of the map afterwards. -/
theorem bootstrap_suppression (K : Db) (items : List Item) :
    (processItems { db := K, spawned := [] } (tagItems 0 items)).spawned = [] ∧
    ∀ i ∈ items,
      i.GUID ∈ (processItems { db := K, spawned := [] } (tagItems 0 items)).db.keys := by
  constructor
  · exact processItems_bootstrap_quiet { db := K, spawned := [] } items
  · intro i hi
    rw [processItems_keys]
    exact Or.inr ⟨⟨0, i⟩, by simp only [tagItems, List.mem_map]; exact ⟨i, hi, rfl⟩, rfl⟩

/-- Witness of C1 on a list with a repeated and an already known identifier. -/
theorem bootstrap_suppression_witness :
    (sample "B").GUID ∈ (processItems { db := [("A", sample "A")], spawned := [] }
      (tagItems 0 [sample "A", sample "B", sample "B"])).db.keys :=
  (bootstrap_suppression [("A", sample "A")] [sample "A", sample "B", sample "B"]).2
    (sample "B") (by decide)

/-- C7: the map only grows. After `checkAndAdd` the keys are exactly the keys before
together with the GUID of the item, for any generation; so after any sequence of tagged
items processed from the empty map, the keys are exactly the GUIDs that occurred. -/
theorem known_set_only_grows :
    (∀ (K : Db) (t : rssItem) (k : String),
      k ∈ (checkAndAdd K t).1.keys ↔ k ∈ K.keys ∨ k = t.item.GUID) ∧
    (∀ (items : List rssItem) (k : String),
      k ∈ (processItems DbState.init items).db.keys ↔ ∃ t ∈ items, t.item.GUID = k) := by
  refine ⟨checkAndAdd_keys, fun items k => ?_⟩
  rw [processItems_keys]
  simp [DbState.init, Db.empty, Db.keys]

/-- C6, as stated, fails: after an item with identifier "A" and title "old" and then an
item with the same identifier and title "new", the map holds the first, not the last. -/
theorem last_seen_counterexample :
    lastSeen "A" [⟨0, ⟨"A", "old", "", ""⟩⟩, ⟨1, ⟨"A", "new", "", ""⟩⟩]
        = some ⟨"A", "new", "", ""⟩ ∧
    (processItems DbState.init
        [⟨0, ⟨"A", "old", "", ""⟩⟩, ⟨1, ⟨"A", "new", "", ""⟩⟩]).db.get? "A"
        = some ⟨"A", "old", "", ""⟩ ∧
    (processItems DbState.init
        [⟨0, ⟨"A", "old", "", ""⟩⟩, ⟨1, ⟨"A", "new", "", ""⟩⟩]).db.get? "A"
        ≠ lastSeen "A" [⟨0, ⟨"A", "old", "", ""⟩⟩, ⟨1, ⟨"A", "new", "", ""⟩⟩] := by
  decide

/-- C6, amended: after any sequence of tagged items processed from the empty map, the
value stored under an identifier is the item of the first tagged item of the sequence that
carries it (and nothing is stored under an identifier that does not occur). -/
theorem known_set_holds_first_seen (items : List rssItem) (id : String) :
    (processItems DbState.init items).db.get? id = firstSeen id items := by
  have key : ∀ (s : DbState), s.db.get? id = none →
      (processItems s items).db.get? id = firstSeen id items := by
    induction items with
    | nil => intro s hs; simpa [firstSeen, processItems_nil] using hs
    | cons t rest ih =>
      intro s hs
      rw [processItems_cons]
      by_cases ht : t.item.GUID = id
      · have hnk : t.item.GUID ∉ s.db.keys := by
          rw [← Db.get?_eq_none_iff, ht]; exact hs
        have hdb : (s.receive t).db = s.db.set t.item.GUID t.item := by
          simp only [DbState.receive, checkAndAdd]
          rw [(Db.get?_eq_none_iff _ _).2 hnk]
          split <;> rfl
        have hin : id ∈ (s.receive t).db.keys := by
          rw [hdb, Db.mem_keys_set]; exact Or.inr ht.symm
        rw [processItems_get?_of_mem _ _ _ hin, hdb, Db.get?_set]
        simp [firstSeen, ht]
      · have hfs : firstSeen id (t :: rest) = firstSeen id rest := by
          simp [firstSeen, List.find?_cons, ht]
        rw [hfs]
        apply ih
        rw [Db.get?_eq_none_iff] at hs ⊢
        intro hin
        rcases (checkAndAdd_keys s.db t id).1 hin with h | h
        · exact hs h
        · exact ht h.symm
  exact key DbState.init rfl

/-- C3: idempotent dedup. Over any sequence of tagged items processed from any map, at
most one delivery goroutine is started for an identifier; none for an identifier that was a
key at the start; and exactly one, for the first item, when a sequence starts with an item
of a generation other than 0 whose identifier is not a key, however often the identifier
comes again. -/
theorem idempotent_dedup (K : Db) (items : List rssItem) (id : String) :
    (requestsFor id (processItems { db := K, spawned := [] } items).spawned).length ≤ 1 ∧
    (id ∈ K.keys →
      requestsFor id (processItems { db := K, spawned := [] } items).spawned = []) ∧
    (∀ (g : Int) (x : Item), g ≠ 0 → x.GUID = id → id ∉ K.keys →
      requestsFor id (processItems { db := K, spawned := [] } (⟨g, x⟩ :: items)).spawned
        = [x]) := by
  refine ⟨?_, ?_, ?_⟩
  · obtain ⟨extra, hsp, hnd, -, -⟩ := processItems_spawned { db := K, spawned := [] } items
    rw [hsp, List.nil_append]
    exact requestsFor_length_le_one id extra hnd
  · intro hk
    obtain ⟨extra, hsp, -, hnew, -⟩ := processItems_spawned { db := K, spawned := [] } items
    rw [hsp, List.nil_append]
    simp only [requestsFor, List.filter_eq_nil_iff, decide_eq_true_eq]
    intro i hi e
    exact hnew i hi (by rw [e]; exact hk)
  · intro g x hg hx hk
    have hr : DbState.receive { db := K, spawned := [] } ⟨g, x⟩
        = { db := K.set x.GUID x, spawned := [x] } := by
      have := checkAndAdd_new K ⟨g, x⟩ hg (by rw [hx]; exact hk)
      simp [DbState.receive, this]
    rw [processItems_cons, hr]
    obtain ⟨extra, hsp, -, hnew, -⟩ :=
      processItems_spawned { db := K.set x.GUID x, spawned := [x] } items
    rw [hsp]
    have hex : requestsFor id extra = [] := by
      simp only [requestsFor, List.filter_eq_nil_iff, decide_eq_true_eq]
      intro i hi e
      apply hnew i hi
      rw [Db.mem_keys_set]
      exact Or.inr (by rw [e, hx])
    simp only [requestsFor] at hex ⊢
    rw [List.filter_append, hex]
    simp [hx]

/-- Witness of C3: an identifier already known, seen in generation 1 and again in 2; and an
unknown identifier seen once in generation 1 and twice in generation 2. -/
theorem idempotent_dedup_witness :
    requestsFor "A" (processItems { db := [("A", sample "A")], spawned := [] }
      [⟨1, sample "A"⟩, ⟨2, sample "A"⟩]).spawned = [] ∧
    requestsFor "B" (processItems { db := [("A", sample "A")], spawned := [] }
      [⟨1, sample "B"⟩, ⟨2, sample "B"⟩, ⟨2, sample "B"⟩]).spawned = [sample "B"] :=
  ⟨(idempotent_dedup [("A", sample "A")] [⟨1, sample "A"⟩, ⟨2, sample "A"⟩] "A").2.1
      (by decide),
   (idempotent_dedup [("A", sample "A")] [⟨2, sample "B"⟩, ⟨2, sample "B"⟩] "B").2.2
      1 (sample "B") (by decide) (by decide) (by decide)⟩

/-- C2: new-item detection. Let `K` be the map after a generation-0 list `B`. For a later
generation `g ≥ 1` whose list `L` carries only identifiers of `K` and one identifier `X` not
in `K`, `x` being the item of `L` that carries `X`, processing `L` starts exactly one
delivery goroutine, for `x`, and leaves the map `K` with `X ↦ x` added. In the scenario
A, B / A, B, C / A, B, C, D the goroutines started are those for C and D, and the keys are
A, B, C, D. -/
theorem new_item_detection :
    (∀ (B L : List Item) (X : String) (x : Item) (g : Int),
      1 ≤ g →
      X ∉ (processItems DbState.init (tagItems 0 B)).db.keys →
      (∀ i ∈ L, i.GUID ∈ (processItems DbState.init (tagItems 0 B)).db.keys ∨ i.GUID = X) →
      L.find? (fun i => i.GUID = X) = some x →
      processItems (processItems DbState.init (tagItems 0 B)) (tagItems g L)
        = { db := (processItems DbState.init (tagItems 0 B)).db.set X x, spawned := [x] } ∧
      ∀ k, k ∈ ((processItems DbState.init (tagItems 0 B)).db.set X x).keys ↔
        k ∈ (processItems DbState.init (tagItems 0 B)).db.keys ∨ k = X) ∧
    (processItems DbState.init (tagItems 0 [sample "A", sample "B"])).spawned = [] ∧
    (processItems DbState.init (tagItems 0 [sample "A", sample "B"]
        ++ tagItems 1 [sample "A", sample "B", sample "C"])).spawned = [sample "C"] ∧
    (processItems DbState.init (tagItems 0 [sample "A", sample "B"]
        ++ tagItems 1 [sample "A", sample "B", sample "C"]
        ++ tagItems 2 [sample "A", sample "B", sample "C", sample "D"])).spawned
      = [sample "C", sample "D"] ∧
    (processItems DbState.init (tagItems 0 [sample "A", sample "B"]
        ++ tagItems 1 [sample "A", sample "B", sample "C"]
        ++ tagItems 2 [sample "A", sample "B", sample "C", sample "D"])).db.keys
      = ["A", "B", "C", "D"] ∧
    (pollCycles 64 [FeedEnv.returning [sample "A", sample "B"],
        FeedEnv.returning [sample "A", sample "B", sample "C"],
        FeedEnv.returning [sample "A", sample "B", sample "C", sample "D"]] Pipeline.init).dbs
      = { db := [("A", sample "A"), ("B", sample "B"), ("C", sample "C"), ("D", sample "D")],
          spawned := [sample "C", sample "D"] } := by
  refine ⟨?_, by decide, by decide, by decide, by decide, by decide⟩
  intro B L X x g hg hX hL hx
  have h0 : processItems DbState.init (tagItems 0 B)
      = { db := (processItems DbState.init (tagItems 0 B)).db, spawned := [] } := by
    have hsp : (processItems DbState.init (tagItems 0 B)).spawned = [] :=
      processItems_bootstrap_quiet DbState.init B
    cases hp : processItems DbState.init (tagItems 0 B) with
    | mk d sp =>
      rw [hp] at hsp
      simp only at hsp
      rw [hsp]
  refine ⟨?_, fun k => Db.mem_keys_set _ _ _ _⟩
  rw [h0]
  exact processItems_one_new _ [] L X x g (by omega) hX hL hx

/-- Witness of C2: after the generation-0 list A, B, the list A, B, C of generation 1. -/
theorem new_item_detection_witness :
    processItems (processItems DbState.init (tagItems 0 [sample "A", sample "B"]))
        (tagItems 1 [sample "A", sample "B", sample "C"])
      = { db := (processItems DbState.init (tagItems 0 [sample "A", sample "B"])).db.set
            "C" (sample "C"),
          spawned := [sample "C"] } :=
  (new_item_detection.1 [sample "A", sample "B"] [sample "A", sample "B", sample "C"] "C"
    (sample "C") 1 (by decide) (by decide) (by decide) (by decide)).1

/-- C8: delivery request construction. When `checkAndAdd` starts a goroutine, its argument
is the item just received, and the message it builds has title "sownotify", HTML mode on,
URL the link of the item, and body "<b>New torrent:</b> ", the title, "<br>", a newline and
the description; apart from the timestamp the message is the same for any two items with
the same title, description and link. -/
theorem delivery_request_construction (K : Db) (t : rssItem) (i : Item) (now : Int)
    (h : (checkAndAdd K t).2 = some i) :
    i = t.item ∧
    deliveryTask now i =
      { Message := "<b>New torrent:</b> " ++ t.item.Title ++ "<br>\n" ++ t.item.Description,
        Title := "sownotify", URL := t.item.Link, Timestamp := now, HTML := true } ∧
    ∀ (j : Item) (later : Int), j.Title = i.Title → j.Description = i.Description →
      j.Link = i.Link →
      { deliveryTask later j with Timestamp := 0 } = { deliveryTask now i with Timestamp := 0 } := by
  obtain ⟨hi, -, -⟩ := checkAndAdd_spawned K t i h
  subst hi
  refine ⟨rfl, rfl, ?_⟩
  intro j later h1 h2 h3
  simp [deliveryTask, NewMessageWithTitle, h1, h2, h3]

/-- Witness of C8: item C of generation 1, unknown to a map with key A. -/
theorem delivery_request_construction_witness :
    deliveryTask 1700000000 (sample "C") =
      { Message := "<b>New torrent:</b> title C<br>\nabout C",
        Title := "sownotify", URL := "http://x/C", Timestamp := 1700000000, HTML := true } :=
  (delivery_request_construction [("A", sample "A")] ⟨1, sample "C"⟩ (sample "C") 1700000000
    (by decide)).2.1

/-! ## The poller -/

/-- C4: fetch-failure isolation. A call of `grabitems` that fails at request construction,
at the transport or at parsing sends no tagged item and leaves `generation` as it was, for
every value of it and whatever `dbmanager` still receives; the pipeline, map included, is unchanged by such a poll; in the
transition system the reader goes straight back to its `select`; and when the first poll
fails, the next one starts from generation 0, an empty map and no delivery request. -/
theorem fetch_failure_isolation (bits : Nat) (env : FeedEnv) (h : env.fails) :
    (∀ (receives : Option Nat) (g : Int),
      grabitems bits env receives g = { sent := [], generation := g, returned := true }) ∧
    (∀ p : Pipeline, pollCycle bits env p = p) ∧
    (∀ s : Sys, s.reader = .grab →
      step bits (.fetch env) s = some { s with reader := .select }) ∧
    pollCycle bits env Pipeline.init
      = { generation := 0, dbs := { db := Db.empty, spawned := [] } } := by
  have hg : ∀ (receives : Option Nat) (g : Int),
      grabitems bits env receives g = { sent := [], generation := g, returned := true } := by
    intro receives g
    unfold grabitems
    rcases h with ⟨e, h1⟩ | ⟨req, e, h1, h2⟩ | ⟨req, resp, e, h1, h2, h3⟩
    · rw [h1]
    · rw [h1]; simp only; rw [h2]
    · rw [h1]; simp only; rw [h2]; simp only; rw [h3]
  have hp : ∀ p : Pipeline, pollCycle bits env p = p := by
    intro p
    simp [pollCycle, hg, processItems_nil]
  refine ⟨hg, hp, ?_, hp _⟩
  intro s hs
  simp [step, hs, hg, Sys.continueLoop]

/-- Witness of C4: the fetch of the first poll fails at the transport. -/
theorem fetch_failure_isolation_witness :
    pollCycle 64 FeedEnv.unreachable Pipeline.init
      = { generation := 0, dbs := { db := Db.empty, spawned := [] } } :=
  (fetch_failure_isolation 64 FeedEnv.unreachable
    (Or.inr (Or.inl ⟨{ url := "feed", userAgent := none }, "connection refused", rfl, rfl⟩))).2.2.2

/-- C5 fails on the code: the signal comes while the first fetch is in flight, `dbmanager`
returns on `<-done`, and the fetch+parse then succeeds with the one item A at counter 0. The
call sends none of its one item, does not return and leaves `generation` at 0: in the
transition system the reader stays at its first send, the map is empty and no step is
enabled. -/
theorem successful_poll_blocks_after_shutdown :
    grabitems 64 (FeedEnv.returning [sample "A"]) (some 0) 0
      = { sent := [], generation := 0, returned := false } ∧
    exec 64 lateFetchSchedule Sys.init = some lateFetchStuck ∧
    lateFetchStuck.reader = .send [⟨0, sample "A"⟩] 1 ∧
    lateFetchStuck.generation = 0 ∧
    lateFetchStuck.db = Db.empty ∧
    lateFetchStuck.dbmanagerAlive = false ∧
    ∀ a : Action, step 64 a lateFetchStuck = none := by
  refine ⟨by decide, by decide, rfl, rfl, rfl, rfl, ?_⟩
  intro a
  cases a <;> simp [step, lateFetchStuck]

/-! ## Startup -/

/-- C9 fails on the code: with good credentials and a good feed `validateConfig` returns
`nil` whatever the poll interval is; with a poll interval of 0 or below `Run` then starts the
three stages and `rssReader` panics in `time.NewTicker`, which kills the process: a fatal
path that is not startup validation. With the default interval of 120 the same call waits in
`done.Wait()`. -/
theorem startup_validation_misses_poll_interval :
    (validateConfig StartupEnv.healthy).1 = none ∧
    Run StartupEnv.healthy 0 3
      = { started := [.pusher, .rssReader, .dbmanager], outcome := .panicked } ∧
    Run StartupEnv.healthy (-1) 3
      = { started := [.pusher, .rssReader, .dbmanager], outcome := .panicked } ∧
    Run StartupEnv.healthy 120 3
      = { started := [.pusher, .rssReader, .dbmanager], outcome := .waiting } := by
  decide

/-! ## Shutdown -/

/-- C10 fails on the code: along `shutdownSchedule` the signal is fired while the reader is
in its `range` loop and a delivery goroutine is at its send; `dbmanager` and `pusher` take
`<-done` and return; the state reached has `quit` closed, no step is enabled in it, the
reader and the delivery goroutine are blocked at their sends, and the wait group is at 1,
so `done.Wait()` does not return. -/
theorem shutdown_can_deadlock :
    exec 64 shutdownSchedule Sys.init = some shutdownStuck ∧
    shutdownStuck.quit = true ∧
    shutdownStuck.reader = .send [⟨1, sample "C"⟩] 2 ∧
    shutdownStuck.blocked = [deliveryTask 200 (sample "B")] ∧
    shutdownStuck.wg = 1 ∧
    shutdownStuck.waitReturns = false ∧
    ∀ a : Action, step 64 a shutdownStuck = none := by
  refine ⟨by decide, rfl, rfl, rfl, rfl, rfl, ?_⟩
  intro a
  cases a <;> simp [step, shutdownStuck]
  split <;> rfl

end Sownotify
